import Mathlib

/-!
Verification of the PicFrame sync-dashboard status backend
(`web_status/status_backend.py`).

The Python module is shallowly embedded: every Python string is a Lean
`String`, manipulated through its underlying `List Char`; file contents are
`Option (List String)` (`none` = the file does not exist, otherwise the list
of lines without trailing newlines); the outcome of an effectful sub-step
(subprocess call, file read) is passed to the embedded function as an
explicit argument, with `Except String α` used where the Python call can
raise (the `String` is the exception text).
-/

namespace PF

/-- Whitespace characters stripped by Python's `str.strip()` / `str.split()`
(ASCII subset, which is all the parsed output contains). -/
def isPySpace (c : Char) : Bool :=
  c == ' ' || c == '\t' || c == '\n' || c == '\r' || c == '\x0b' || c == '\x0c'

/-- Python `str.strip()`: drop leading and trailing whitespace. -/
def pyStrip (l : List Char) : List Char :=
  ((l.dropWhile isPySpace).reverse.dropWhile isPySpace).reverse

/-- Python `str.lower()` (ASCII). -/
def lowerL (l : List Char) : List Char :=
  l.map Char.toLower

/-- Python's substring test `needle in hay`. -/
def containsSub (needle : List Char) : List Char → Bool
  | [] => needle.isEmpty
  | c :: rest => needle.isPrefixOf (c :: rest) || containsSub needle rest

/-- The part of `l` after the first occurrence of `ch`
(`l.split(ch, 1)[1]`); `none` when `ch` does not occur
(in Python, indexing `[1]` would then raise). -/
def afterFirstChar (ch : Char) : List Char → Option (List Char)
  | [] => none
  | c :: rest => if c = ch then some rest else afterFirstChar ch rest

/-- Both parts of `l.split(ch, 1)`; `none` when `ch` does not occur. -/
def splitFirstChar (ch : Char) : List Char → Option (List Char × List Char)
  | [] => none
  | c :: rest =>
    if c = ch then some ([], rest)
    else (splitFirstChar ch rest).map (fun p => (c :: p.1, p.2))

/-- The part of `hay` after the first occurrence of the (nonempty)
separator `sep`, as in `hay.split(sep, 1)[1]`. -/
def afterFirstSep (sep : List Char) : List Char → Option (List Char)
  | [] => none
  | c :: rest =>
    if sep.isPrefixOf (c :: rest) then some ((c :: rest).drop sep.length)
    else afterFirstSep sep rest

/-- Digit-sequence parser for Python `int()`: one or more ASCII digits, with
single underscores allowed between digits. -/
def pyDigitsAux (acc : Nat) : List Char → Option Nat
  | [] => some acc
  | '_' :: c :: rest =>
    if c.isDigit then pyDigitsAux (acc * 10 + (c.toNat - 48)) rest else none
  | '_' :: [] => none
  | c :: rest =>
    if c.isDigit then pyDigitsAux (acc * 10 + (c.toNat - 48)) rest else none

/-- Nonempty digit sequence (with underscore separators), as accepted by
Python `int()` after the optional sign. -/
def pyDigits : List Char → Option Nat
  | [] => none
  | '_' :: _ => none
  | c :: rest =>
    if c.isDigit then pyDigitsAux (c.toNat - 48) rest else none

/-- Python `int(tok)` on a whitespace-free token: optional sign followed by
digits; `none` models the `ValueError`. -/
def pyInt : List Char → Option Int
  | '+' :: rest => (pyDigits rest).map Int.ofNat
  | '-' :: rest => (pyDigits rest).map (fun n => -(Int.ofNat n))
  | rest => (pyDigits rest).map Int.ofNat

/-- The count extraction applied to a stripped line in `run_quick_check`:
`int(stripped.split(":", 1)[1].strip().split()[0])`, with `none` for any of
the exceptions the Python `try` swallows. -/
def parseCountToken (stripped : List Char) : Option Int :=
  match afterFirstChar ':' stripped with
  | none => none
  | some rest =>
    let after := pyStrip rest
    let tok := after.takeWhile (fun c => !(isPySpace c))
    if tok.isEmpty then none else pyInt tok

/-- Mutable scan state of the line loop in `run_quick_check`
(`remote_count`, `local_count`, `quick_status`). -/
structure ScanState where
  remote_count : Option Int
  local_count : Option Int
  status : String
  deriving DecidableEq

/-- One iteration of the line loop in `run_quick_check`
(`status_backend.py`, lines 106-133). -/
def scanLine (st : ScanState) (line : String) : ScanState :=
  let stripped := pyStrip line.data
  let lw := lowerL stripped
  let st1 :=
    if containsSub ("remote file count".data) lw then
      match parseCountToken stripped with
      | some v => { st with remote_count := some v }
      | none => st
    else if containsSub ("local".data) lw && containsSub ("file count".data) lw then
      match parseCountToken stripped with
      | some v => { st with local_count := some v }
      | none => st
    else st
  if containsSub ("quick check".data) lw then
    if containsSub ("mismatch".data) lw || containsSub ("differ".data) lw then
      { st1 with status := "differ" }
    else if containsSub ("file counts match".data) lw || containsSub ("match".data) lw then
      { st1 with status := "match" }
    else if containsSub ("error".data) lw || containsSub ("failed".data) lw then
      { st1 with status := "error" }
    else st1
  else st1

/-- The whole line loop, started from the initial
`remote_count = None, local_count = None, quick_status = "unknown"`. -/
def scanLines (lines : List String) : ScanState :=
  lines.foldl scanLine ⟨none, none, "unknown"⟩

/-- Return value of `run_quick_check` (the dict built at lines 145-151). -/
structure QuickCheckResult where
  remote_count : Option Int
  local_count : Option Int
  quick_status : String
  raw_output : List String
  error : Option String
  deriving DecidableEq

/-- `run_quick_check` after the subprocess has returned: `returncode` is the
exit code and `lines` the splitlines of the concatenated stdout+stderr
(`status_backend.py`, lines 96-151). -/
def run_quick_check (returncode : Int) (lines : List String) : QuickCheckResult :=
  let st := scanLines lines
  let status1 :=
    if returncode ≠ 0 ∧ st.remote_count = none ∧ st.local_count = none ∧
        st.status = "unknown" then "error"
    else st.status
  let error_msg :=
    if returncode ≠ 0 ∧ st.remote_count = none ∧ st.local_count = none then
      some ("chk_sync.sh exited " ++ toString returncode)
    else none
  let status2 :=
    match st.remote_count, st.local_count with
    | some r, some l =>
      if status1 = "unknown" then (if r = l then "match" else "differ") else status1
    | _, _ => status1
  ⟨st.remote_count, st.local_count, status2, lines, error_msg⟩

/-- The early-return branch of `run_quick_check` when `subprocess.run`
itself raises (lines 87-94). -/
def run_quick_check_caught (e : String) : QuickCheckResult :=
  ⟨none, none, "error", [], some ("Failed to run chk_sync.sh: " ++ e)⟩

/-- Numeric value of an ASCII digit. -/
def dv (c : Char) : Nat := c.toNat - 48

/-- Gregorian leap year, as used by Python's `datetime`. -/
def isLeap (y : Nat) : Bool := y % 4 == 0 && (y % 100 != 0 || y % 400 == 0)

/-- Days in a month, as enforced by the `datetime` constructor. -/
def daysInMonth (y m : Nat) : Nat :=
  if m = 2 then (if isLeap y then 29 else 28)
  else if m = 4 ∨ m = 6 ∨ m = 9 ∨ m = 11 then 30
  else 31

/-- `datetime.strptime(ts, "%Y-%m-%d %H:%M:%S")` succeeding on a string.
Because `%Y` matches exactly four digits and every separator is literal, a
19-character input parses iff it has the fixed layout below with in-range
field values (strptime's final `datetime(...)` call rejects out-of-range
days, hours, minutes and seconds). -/
def isValidTs : List Char → Bool
  | [y1, y2, y3, y4, c1, m1, m2, c2, d1, d2, c3, h1, h2, c4, n1, n2, c5, s1, s2] =>
    y1.isDigit && y2.isDigit && y3.isDigit && y4.isDigit &&
    m1.isDigit && m2.isDigit && d1.isDigit && d2.isDigit &&
    h1.isDigit && h2.isDigit && n1.isDigit && n2.isDigit &&
    s1.isDigit && s2.isDigit &&
    c1 == '-' && c2 == '-' && c3 == ' ' && c4 == ':' && c5 == ':' &&
    (let year := dv y1 * 1000 + dv y2 * 100 + dv y3 * 10 + dv y4
     let month := dv m1 * 10 + dv m2
     let day := dv d1 * 10 + dv d2
     let hour := dv h1 * 10 + dv h2
     let minute := dv n1 * 10 + dv n2
     let second := dv s1 * 10 + dv s2
     decide (1 ≤ month) && decide (month ≤ 12) &&
     decide (1 ≤ day) && decide (day ≤ daysInMonth year month) &&
     decide (hour ≤ 23) && decide (minute ≤ 59) && decide (second ≤ 59))
  | _ => false

/-- `_tail_lines`: last `max_lines` lines of the file joined with newlines;
`""` when the file does not exist (lines 158-165). -/
def tail_lines (file : Option (List String)) (max_lines : Nat) : String :=
  match file with
  | none => ""
  | some lines => String.intercalate "\n" (lines.drop (lines.length - max_lines))

/-- `_last_matching_timestamp` (lines 168-186): keep the last line containing
`needle`, take its first 19 characters and validate them; any failure gives
`none`.  (The Python falsy test `if not last_line` also rejects an empty
matched line; an empty string never passes `isValidTs`, so the result is the
same.) -/
def last_matching_timestamp (file : Option (List String)) (needle : String) :
    Option String :=
  match file with
  | none => none
  | some lines =>
    match lines.foldl
        (fun acc l => if containsSub needle.data l.data then some l else acc)
        none with
    | none => none
    | some l =>
      let ts := l.data.take 19
      if isValidTs ts then some (String.mk ts) else none

/-- Return value of `parse_log` (lines 198-202). -/
structure LogInfo where
  last_service_restart : String
  last_file_download : String
  log_tail : String
  deriving DecidableEq

/-- `parse_log` (lines 189-202). -/
def parse_log (file : Option (List String)) : LogInfo :=
  { last_service_restart :=
      (last_matching_timestamp file "Service picframe.service restarted successfully").getD "--",
    last_file_download :=
      (last_matching_timestamp file "rclone sync completed successfully").getD "--",
    log_tail := tail_lines file 60 }

/-- `_systemctl_status` for a system-scoped service (lines 228-243): the
probe argument is the outcome of the `systemctl is-active` invocation,
`.ok (stdout, stderr)` on return, `.error e` when `subprocess.run` raised
(caught by the function's outer handler). -/
def systemctl_status (probe : Except String (String × String)) : String :=
  match probe with
  | .error _ => "unknown"
  | .ok pr =>
    let so := String.mk (pyStrip pr.1.data)
    let se := String.mk (pyStrip pr.2.data)
    let status := if so ≠ "" then so else if se ≠ "" then se else "unknown"
    if containsSub ("failed to connect".data) (lowerL status.data) then "unknown"
    else status

/-- `_systemctl_status` for the user-scoped service (lines 245-294): same
normalization of the `systemctl --user --machine=pi@ is-active` outcome, then
the `pgrep` fallback when the status is still "unknown".  `probe = .error e`
covers any exception before the fallback (including a raising `loginctl`
call); `pgrepHit` is true iff `pgrep` exited 0 with nonempty output (false
also covers a raising `pgrep`, whose inner handler passes). -/
def systemctl_status_user (probe : Except String (String × String))
    (pgrepHit : Bool) : String :=
  match probe with
  | .error _ => "unknown"
  | .ok pr =>
    let status := systemctl_status (.ok pr)
    if status = "unknown" && pgrepHit then "active" else status

/-- Strip all leading and trailing occurrences of one character
(Python `str.strip('"')`). -/
def stripChar (ch : Char) (l : List Char) : List Char :=
  ((l.dropWhile (· == ch)).reverse.dropWhile (· == ch)).reverse

/-- `val.strip().strip('"').strip("'")` from `_current_remote_from_conf`. -/
def stripQuotes (l : List Char) : List Char :=
  stripChar '\'' (stripChar '"' (pyStrip l))

/-- The accumulation loop of `_current_remote_from_conf` (lines 305-315);
`none` models an exception escaping to the function's handler (a config line
that starts with `ACTIVE_SOURCE` or looks like a label but has no `=`). -/
def crcLoop :
    List String → Option (List Char) → List (List Char × List Char) →
      Option (Option (List Char) × List (List Char × List Char))
  | [], act, labels => some (act, labels)
  | raw :: rest, act, labels =>
    let line := pyStrip raw.data
    if line.isEmpty then crcLoop rest act labels
    else if ("#".data).isPrefixOf line then crcLoop rest act labels
    else if ("ACTIVE_SOURCE".data).isPrefixOf line then
      match afterFirstChar '=' line with
      | none => none
      | some val => crcLoop rest (some (stripQuotes (pyStrip val))) labels
    else if ("SOURCE_".data).isPrefixOf line && containsSub ("_LABEL".data) line then
      match splitFirstChar '=' line with
      | none => none
      | some kv => crcLoop rest act ((pyStrip kv.1, stripQuotes (pyStrip kv.2)) :: labels)
    else crcLoop rest act labels

/-- `_current_remote_from_conf` (lines 297-323): `conf` is the config file
content (`none` = the file does not exist).  Later label assignments win, so
the lookup takes the first match in the reversed accumulation list. -/
def current_remote_from_conf (conf : Option (List String)) : String :=
  match conf with
  | none => "--"
  | some lines =>
    match crcLoop lines none [] with
    | none => "--"
    | some (act, labels) =>
      match act with
      | none => "--"
      | some src =>
        if src.isEmpty then "--"
        else
          let label_key := ("SOURCE_".data) ++ src ++ ("_LABEL".data)
          match labels.find? (fun p => p.1 == label_key) with
          | some p => String.mk p.2
          | none => String.mk src

/-- `_current_remote_from_quick` (lines 326-349): the first line whose
lowercased stripped form starts with "active source:" yields the label after
" - " (or the whole remainder), "--" otherwise. -/
def current_remote_from_quick : List String → String
  | [] => "--"
  | line :: rest =>
    let stripped := pyStrip line.data
    let lw := lowerL stripped
    if ("active source:".data).isPrefixOf lw then
      match afterFirstChar ':' stripped with
      | none => current_remote_from_quick rest
      | some tail =>
        let after := pyStrip tail
        let label :=
          match afterFirstSep (" - ".data) after with
          | some p => pyStrip p
          | none => after
        if label.isEmpty then "--" else String.mk label
    else current_remote_from_quick rest

/-- `source_details` value of the payload (lines 363-367). -/
structure SourceDetails where
  source_name : String
  remote_path : String
  local_path : String
  deriving DecidableEq

/-- One iteration of the loop of `_parse_source_details_from_quick`
(lines 372-404). -/
def sourceDetailStep (st : SourceDetails) (line : String) : SourceDetails :=
  let stripped := pyStrip line.data
  let lw := lowerL stripped
  if ("active source:".data).isPrefixOf lw then
    match afterFirstChar ':' stripped with
    | none => st
    | some tail => { st with source_name := String.mk (pyStrip tail) }
  else if containsSub ("remote".data) lw && stripped.contains ':' &&
      !(containsSub ("active source".data) lw) then
    match afterFirstChar ':' stripped with
    | none => st
    | some tail =>
      let after := pyStrip tail
      if !after.isEmpty && after.contains ':' then
        { st with remote_path := String.mk after }
      else st
  else if containsSub ("local".data) lw &&
      (containsSub ("dir".data) lw || containsSub ("directory".data) lw) &&
      stripped.contains ':' then
    match afterFirstChar ':' stripped with
    | none => st
    | some tail =>
      let after := pyStrip tail
      if !after.isEmpty && (("/".data).isPrefixOf after) then
        { st with local_path := String.mk after }
      else st
  else st

/-- `_parse_source_details_from_quick` (lines 352-406). -/
def parse_source_details (raw_lines : List String) : SourceDetails :=
  raw_lines.foldl sourceDetailStep ⟨"--", "--", "--"⟩

/-- `overall` sub-object of the payload. -/
structure Overall where
  remote_count : Option Int
  local_count : Option Int
  severity : String
  status_text : String
  deriving DecidableEq

/-- `activity` sub-object of the payload. -/
structure Activity where
  last_service_restart : String
  last_file_download : String
  log_tail : String
  deriving DecidableEq

/-- The `debug` dict of the payload with its three possible keys; an outer
`none` means the key is absent from the dict. -/
structure DebugMap where
  quick_error : Option (Option String)
  quick_raw_output : Option (List String)
  top_level_error : Option String
  deriving DecidableEq

/-- The payload returned by `get_status_payload` (lines 463-483 / 489-513). -/
structure StatusPayload where
  now : String
  script_path : String
  log_path : String
  overall : Overall
  web_status : String
  pf_status : String
  current_remote : String
  source_details : SourceDetails
  activity : Activity
  debug : DebugMap
  deriving DecidableEq

/-- The `except` branch of `get_status_payload` (lines 485-513): every field
is a sentinel, with the accumulated debug map. -/
def payload_error (now script_path log_path : String) (debug : DebugMap) :
    StatusPayload :=
  ⟨now, script_path, log_path, ⟨none, none, "ERROR", "Backend error"⟩,
   "unknown", "unknown", "--", ⟨"--", "--", "--"⟩, ⟨"--", "--", ""⟩, debug⟩

/-- `get_status_payload` (lines 413-513).  Effectful sub-steps are inputs:
`quick` is the outcome of the `run_quick_check()` call (`.error e` when it
raises, e.g. from the config lookup inside it), `logf` the log-file content
(`.error e` when reading raises), `webProbe`/`pfProbe`/`pfPgrep` feed the two
service probes (which never raise), `conf` the `frame_sources.conf` content
and `now` the formatted current time.  The first raising step jumps to the
`except` branch with the debug entries accumulated so far. -/
def get_status_payload (script_path log_path : String)
    (quick : Except String QuickCheckResult)
    (logf : Except String (Option (List String)))
    (webProbe pfProbe : Except String (String × String)) (pfPgrep : Bool)
    (conf : Option (List String))
    (now : String) : StatusPayload :=
  match quick with
  | .error e => payload_error now script_path log_path ⟨none, none, some e⟩
  | .ok q =>
    let debug1 : DebugMap := ⟨some q.error, some q.raw_output, none⟩
    let quick_status := if q.quick_status = "" then "unknown" else q.quick_status
    let severity :=
      if quick_status = "match" then "OK"
      else if quick_status = "differ" then "WARN"
      else if quick_status = "error" then "ERROR"
      else "UNKNOWN"
    let overall_text :=
      if quick_status = "match" then "Last sync succeeded"
      else if quick_status = "differ" then "Counts differ – check needed"
      else if quick_status = "error" then "Error running chk_sync.sh"
      else "Status unknown"
    match logf with
    | .error e =>
      payload_error now script_path log_path { debug1 with top_level_error := some e }
    | .ok logc =>
      let log_info := parse_log logc
      let web_status := systemctl_status webProbe
      let pf_status := systemctl_status_user pfProbe pfPgrep
      let cr0 := current_remote_from_conf conf
      let current_remote :=
        if cr0 = "" ∨ cr0 = "--" then current_remote_from_quick q.raw_output else cr0
      let source_details := parse_source_details q.raw_output
      ⟨now, script_path, log_path,
       ⟨q.remote_count, q.local_count, severity, overall_text⟩,
       web_status, pf_status,
       (if current_remote = "" then "--" else current_remote),
       source_details,
       ⟨log_info.last_service_restart, log_info.last_file_download, log_info.log_tail⟩,
       debug1⟩

/-- Modelled from the spec: the fixed severity mapping of §4.5 step 2
("match→OK, differ→WARN, error→ERROR, unknown→UNKNOWN" with anything else
reported as UNKNOWN).  Compared against the inline mapping of
`get_status_payload`. -/
def sevSpec (qs : String) : String :=
  if qs = "match" then "OK"
  else if qs = "differ" then "WARN"
  else if qs = "error" then "ERROR"
  else "UNKNOWN"

/-- The exception text of the first sub-step of `get_status_payload` that
raises, if any (the value the top-level handler stores under
`debug["top_level_error"]`). -/
def firstFailure (quick : Except String QuickCheckResult)
    (logf : Except String (Option (List String))) : Option String :=
  match quick with
  | .error e => some e
  | .ok _ =>
    match logf with
    | .error e => some e
    | .ok _ => none

/-- Spec-side reading of the remote-count extraction: the value a line
contributes to `remote_count` (none when the marker is absent or the token
does not parse). -/
def remoteExtract (line : String) : Option Int :=
  let stripped := pyStrip line.data
  if containsSub ("remote file count".data) (lowerL stripped) then
    parseCountToken stripped
  else none

/-- Spec-side reading of the local-count extraction.  Because the scan uses
`elif`, a line matching the remote marker never reaches the local branch. -/
def localExtract (line : String) : Option Int :=
  let stripped := pyStrip line.data
  let lw := lowerL stripped
  if !(containsSub ("remote file count".data) lw) &&
      containsSub ("local".data) lw && containsSub ("file count".data) lw then
    parseCountToken stripped
  else none

/-- Spec-side reading of the verdict extraction: the verdict a "quick check"
line contributes (none when it carries no verdict keyword). -/
def verdictExtract (line : String) : Option String :=
  let lw := lowerL (pyStrip line.data)
  if containsSub ("quick check".data) lw then
    if containsSub ("mismatch".data) lw || containsSub ("differ".data) lw then
      some "differ"
    else if containsSub ("file counts match".data) lw || containsSub ("match".data) lw then
      some "match"
    else if containsSub ("error".data) lw || containsSub ("failed".data) lw then
      some "error"
    else none
  else none

/-! ### Helper lemmas -/

theorem or_none_right {α : Type} (a : Option α) : a.or none = a := by
  cases a <;> rfl

theorem or_some_absorb {α : Type} (a : Option α) (y : α) (c : Option α) :
    (a.or (some y)).or c = a.or (some y) := by
  cases a <;> rfl

theorem getLast_cons_or {α : Type} (x : α) (xs : List α) :
    (x :: xs).getLast? = xs.getLast?.or (some x) := by
  induction xs generalizing x with
  | nil => rfl
  | cons y ys ih => rw [List.getLast?_cons_cons, ih, or_some_absorb]

theorem getLastQ_mem {α : Type} {l : List α} {a : α} (h : l.getLast? = some a) :
    a ∈ l := by
  induction l with
  | nil => simp [List.getLast?] at h
  | cons x xs ih =>
    rw [getLast_cons_or] at h
    cases hx : xs.getLast? with
    | none => rw [hx] at h; simp [Option.or] at h; simp [h]
    | some b =>
      rw [hx] at h; simp [Option.or] at h
      exact List.mem_cons_of_mem x (ih (h ▸ hx))

theorem foldl_if_last {α : Type} (p : α → Bool) (lines : List α) :
    ∀ init, lines.foldl (fun acc l => if p l then some l else acc) init =
      ((lines.filter p).getLast?).or init := by
  induction lines with
  | nil => intro init; rfl
  | cons l ls ih =>
    intro init
    rw [List.foldl_cons, ih, List.filter_cons]
    cases h : p l
    · simp [h]
    · simp [h, getLast_cons_or, or_some_absorb]

theorem scanLine_remote (st : ScanState) (line : String) :
    (scanLine st line).remote_count = (remoteExtract line).or st.remote_count := by
  obtain ⟨a, b, c⟩ := st
  simp only [scanLine, remoteExtract]
  cases hR : containsSub ("remote file count".data) (lowerL (pyStrip line.data)) <;>
    cases hP : parseCountToken (pyStrip line.data) <;>
      simp [hR, hP, Option.or, apply_ite ScanState.remote_count]

theorem scanLine_local (st : ScanState) (line : String) :
    (scanLine st line).local_count = (localExtract line).or st.local_count := by
  obtain ⟨a, b, c⟩ := st
  simp only [scanLine, localExtract]
  cases hR : containsSub ("remote file count".data) (lowerL (pyStrip line.data)) <;>
    cases hL : (containsSub ("local".data) (lowerL (pyStrip line.data)) &&
      containsSub ("file count".data) (lowerL (pyStrip line.data))) <;>
      cases hP : parseCountToken (pyStrip line.data) <;>
        simp [hR, hL, hP, Option.or, apply_ite ScanState.local_count]

theorem scanLine_status (st : ScanState) (line : String) :
    (scanLine st line).status = (verdictExtract line).getD st.status := by
  obtain ⟨a, b, c⟩ := st
  simp only [scanLine, verdictExtract]
  cases hQ : containsSub ("quick check".data) (lowerL (pyStrip line.data)) <;>
    cases hP : parseCountToken (pyStrip line.data) <;>
      simp [hQ, hP, apply_ite ScanState.status,
        apply_ite (fun o => Option.getD o c)]

theorem or_none_left {α : Type} (b : Option α) : (none : Option α).or b = b := rfl

theorem or_some_left {α : Type} (y : α) (c : Option α) :
    (some y).or c = some y := rfl

theorem scan_foldl_remote (lines : List String) :
    ∀ st, (lines.foldl scanLine st).remote_count =
      ((lines.filterMap remoteExtract).getLast?).or st.remote_count := by
  induction lines with
  | nil => intro st; rfl
  | cons l ls ih =>
    intro st
    rw [List.foldl_cons, ih, scanLine_remote, List.filterMap_cons]
    cases hE : remoteExtract l
    · simp [or_none_left]
    · simp [getLast_cons_or, or_some_absorb, or_some_left]

theorem scan_foldl_local (lines : List String) :
    ∀ st, (lines.foldl scanLine st).local_count =
      ((lines.filterMap localExtract).getLast?).or st.local_count := by
  induction lines with
  | nil => intro st; rfl
  | cons l ls ih =>
    intro st
    rw [List.foldl_cons, ih, scanLine_local, List.filterMap_cons]
    cases hE : localExtract l
    · simp [or_none_left]
    · simp [getLast_cons_or, or_some_absorb, or_some_left]

theorem scan_foldl_status (lines : List String) :
    ∀ st, (lines.foldl scanLine st).status =
      ((lines.filterMap verdictExtract).getLast?).getD st.status := by
  induction lines with
  | nil => intro st; rfl
  | cons l ls ih =>
    intro st
    rw [List.foldl_cons, ih, scanLine_status, List.filterMap_cons]
    cases hE : verdictExtract l
    · simp
    · cases hA : (List.filterMap verdictExtract ls).getLast? <;>
        simp [hA, getLast_cons_or, Option.or]

theorem scanLines_remote (lines : List String) :
    (scanLines lines).remote_count = (lines.filterMap remoteExtract).getLast? := by
  rw [scanLines, scan_foldl_remote]; exact or_none_right _

theorem scanLines_local (lines : List String) :
    (scanLines lines).local_count = (lines.filterMap localExtract).getLast? := by
  rw [scanLines, scan_foldl_local]; exact or_none_right _

theorem scanLines_status (lines : List String) :
    (scanLines lines).status =
      ((lines.filterMap verdictExtract).getLast?).getD "unknown" := by
  rw [scanLines, scan_foldl_status]

theorem run_qc_remote (rc : Int) (lines : List String) :
    (run_quick_check rc lines).remote_count = (scanLines lines).remote_count := rfl

theorem run_qc_local (rc : Int) (lines : List String) :
    (run_quick_check rc lines).local_count = (scanLines lines).local_count := rfl

theorem run_qc_status_known (rc : Int) (lines : List String)
    (h : (scanLines lines).status ≠ "unknown") :
    (run_quick_check rc lines).quick_status = (scanLines lines).status := by
  simp only [run_quick_check]
  rw [if_neg (fun hc => h hc.2.2.2)]
  rcases hr : (scanLines lines).remote_count with _ | r <;>
    rcases hl : (scanLines lines).local_count with _ | l <;>
      simp [hr, hl, h]

theorem payload_severity_eq (sp lp : String) (q : QuickCheckResult)
    (logc : Option (List String)) (webp pfp : Except String (String × String))
    (pg : Bool) (conf : Option (List String)) (now : String) :
    (get_status_payload sp lp (.ok q) (.ok logc) webp pfp pg conf now).overall.severity =
      sevSpec q.quick_status := by
  by_cases h0 : q.quick_status = ""
  · simp [get_status_payload, sevSpec, h0]
  · simp [get_status_payload, sevSpec, h0]

/-- Every verdict a "quick check" line contributes comes from a line that
contains the "quick check" marker. -/
theorem verdictExtract_marker {line v : String} (h : verdictExtract line = some v) :
    containsSub ("quick check".data) (lowerL (pyStrip line.data)) = true := by
  by_cases hQ : containsSub ("quick check".data) (lowerL (pyStrip line.data)) = true
  · exact hQ
  · exfalso
    simp only [verdictExtract] at h
    rw [if_neg hQ] at h
    exact Option.noConfusion h

/-! ### Claims -/

/-- Claim C1: `get_status_payload` never raises — in the embedding it is a
total function into the fully-populated `StatusPayload` structure — and for
every outcome of the quick check, the log read, the service probes and the
config lookup, including raising ones, the payload is structurally complete:
when a sub-step raises (the Python top-level handler fires) every data field
is the documented sentinel, `severity` is "ERROR" and the debug map carries
`top_level_error` with the exception text; when no sub-step raises, no
`top_level_error` entry is present. -/
theorem c1_reconciler_never_raises (sp lp : String)
    (quick : Except String QuickCheckResult)
    (logf : Except String (Option (List String)))
    (webp pfp : Except String (String × String)) (pg : Bool)
    (conf : Option (List String)) (now : String) :
    (∀ e, quick = .error e →
      (get_status_payload sp lp quick logf webp pfp pg conf now).overall =
        ⟨none, none, "ERROR", "Backend error"⟩ ∧
      (get_status_payload sp lp quick logf webp pfp pg conf now).web_status = "unknown" ∧
      (get_status_payload sp lp quick logf webp pfp pg conf now).pf_status = "unknown" ∧
      (get_status_payload sp lp quick logf webp pfp pg conf now).current_remote = "--" ∧
      (get_status_payload sp lp quick logf webp pfp pg conf now).source_details =
        ⟨"--", "--", "--"⟩ ∧
      (get_status_payload sp lp quick logf webp pfp pg conf now).activity =
        ⟨"--", "--", ""⟩ ∧
      (get_status_payload sp lp quick logf webp pfp pg conf now).debug.top_level_error =
        some e) ∧
    (∀ q e, quick = .ok q → logf = .error e →
      (get_status_payload sp lp quick logf webp pfp pg conf now).overall =
        ⟨none, none, "ERROR", "Backend error"⟩ ∧
      (get_status_payload sp lp quick logf webp pfp pg conf now).activity =
        ⟨"--", "--", ""⟩ ∧
      (get_status_payload sp lp quick logf webp pfp pg conf now).debug.top_level_error =
        some e) ∧
    (∀ q lc, quick = .ok q → logf = .ok lc →
      (get_status_payload sp lp quick logf webp pfp pg conf now).debug.top_level_error =
        none) := by
  refine ⟨?_, ?_, ?_⟩
  · rintro e rfl
    exact ⟨rfl, rfl, rfl, rfl, rfl, rfl, rfl⟩
  · rintro q e rfl rfl
    exact ⟨rfl, rfl, rfl⟩
  · rintro q lc rfl rfl
    rfl

/-- Witness for C1 at a concrete raising quick check. -/
theorem c1_witness :
    (get_status_payload "s" "l" (.error "boom") (.ok none) (.ok ("", ""))
        (.ok ("", "")) false none "T").overall =
      ⟨none, none, "ERROR", "Backend error"⟩ ∧
    (get_status_payload "s" "l" (.error "boom") (.ok none) (.ok ("", ""))
        (.ok ("", "")) false none "T").debug.top_level_error = some "boom" := by
  have h := c1_reconciler_never_raises "s" "l" (.error "boom") (.ok none)
    (.ok ("", "")) (.ok ("", "")) false none "T"
  exact ⟨(h.1 "boom" rfl).1, (h.1 "boom" rfl).2.2.2.2.2.2⟩

/-- Counterexample to C2: the line "Quick check error: match" contains the
"quick check" marker, the negative token "error" and the positive token
"match", yet `run_quick_check` resolves it to "match" — "error" (like
"failed") is tested only after "match", not before it. -/
theorem c2_counterexample :
    containsSub ("quick check".data)
      (lowerL (pyStrip ("Quick check error: match").data)) = true ∧
    containsSub ("error".data)
      (lowerL (pyStrip ("Quick check error: match").data)) = true ∧
    containsSub ("match".data)
      (lowerL (pyStrip ("Quick check error: match").data)) = true ∧
    (run_quick_check 0 ["Quick check error: match"]).quick_status = "match" :=
  ⟨rfl, rfl, rfl, rfl⟩

/-- Claim C2 (amended): in the verdict detection only "mismatch" and
"differ" are tested before "match" — a "quick check" line containing
"mismatch" or "differ" always yields "differ", never "match"; "error" and
"failed" are tested after "match", so a line without "mismatch"/"differ"
that contains "match" yields "match" even when "error" or "failed" is also
present. -/
theorem c2_amended_tie_break (line : String) :
    containsSub ("quick check".data) (lowerL (pyStrip line.data)) = true →
    ((containsSub ("mismatch".data) (lowerL (pyStrip line.data)) = true ∨
      containsSub ("differ".data) (lowerL (pyStrip line.data)) = true) →
      (run_quick_check 0 [line]).quick_status = "differ") ∧
    (containsSub ("mismatch".data) (lowerL (pyStrip line.data)) = false →
      containsSub ("differ".data) (lowerL (pyStrip line.data)) = false →
      containsSub ("match".data) (lowerL (pyStrip line.data)) = true →
      (run_quick_check 0 [line]).quick_status = "match") := by
  intro hq
  constructor
  · intro hneg
    have hs : (scanLines [line]).status = "differ" := by
      rw [show scanLines [line] = scanLine ⟨none, none, "unknown"⟩ line from rfl,
        scanLine_status]
      simp only [verdictExtract]
      rw [if_pos hq]
      have hcond : (containsSub ("mismatch".data) (lowerL (pyStrip line.data)) ||
          containsSub ("differ".data) (lowerL (pyStrip line.data))) = true := by
        rcases hneg with h | h <;> simp [h]
      rw [if_pos hcond]
      rfl
    have hne : (scanLines [line]).status ≠ "unknown" := by
      rw [hs]; decide
    rw [run_qc_status_known 0 [line] hne, hs]
  · intro h1 h2 h3
    have hs : (scanLines [line]).status = "match" := by
      rw [show scanLines [line] = scanLine ⟨none, none, "unknown"⟩ line from rfl,
        scanLine_status]
      simp only [verdictExtract]
      rw [if_pos hq]
      have hcond1 : ¬((containsSub ("mismatch".data) (lowerL (pyStrip line.data)) ||
          containsSub ("differ".data) (lowerL (pyStrip line.data))) = true) := by
        simp [h1, h2]
      rw [if_neg hcond1]
      have hcond2 : (containsSub ("file counts match".data) (lowerL (pyStrip line.data)) ||
          containsSub ("match".data) (lowerL (pyStrip line.data))) = true := by
        simp [h3]
      rw [if_pos hcond2]
      rfl
    have hne : (scanLines [line]).status ≠ "unknown" := by
      rw [hs]; decide
    rw [run_qc_status_known 0 [line] hne, hs]

/-- Witness for C2 (amended) on a line containing both "mismatch" and
"match". -/
theorem c2_witness :
    (run_quick_check 0 ["Quick check: mismatch while match"]).quick_status =
      "differ" :=
  (c2_amended_tie_break "Quick check: mismatch while match" rfl).1 (Or.inl rfl)

/-- Counterexample to C3: an output in which both counts are recovered and
differ (5 vs 3) but a "File counts match." verdict line is present yields
`quick_status = "match"` and severity "OK" — the textual verdict takes
precedence over the unequal counts, not the other way round. -/
theorem c3_counterexample :
    (run_quick_check 0 ["Remote file count: 5", "Local  file count: 3",
        "Quick check: File counts match."]).remote_count = some 5 ∧
    (run_quick_check 0 ["Remote file count: 5", "Local  file count: 3",
        "Quick check: File counts match."]).local_count = some 3 ∧
    (run_quick_check 0 ["Remote file count: 5", "Local  file count: 3",
        "Quick check: File counts match."]).quick_status = "match" ∧
    (get_status_payload "s" "l"
        (.ok (run_quick_check 0 ["Remote file count: 5", "Local  file count: 3",
          "Quick check: File counts match."]))
        (.ok none) (.ok ("", "")) (.ok ("", "")) false none "T").overall.severity =
      "OK" :=
  ⟨rfl, rfl, rfl, rfl⟩

/-- Claim C3 (amended): when the scan recovers no verdict (the scanned
status is still "unknown") and both counts are recovered with unequal
values, `quick_status` is "differ" and `get_status_payload` reports severity
"WARN", for every exit code; a recovered textual verdict, however, takes
precedence over the counts. -/
theorem c3_amended_count_inference (rc : Int) (lines : List String) (r l : Int)
    (hs : (scanLines lines).status = "unknown")
    (hr : (scanLines lines).remote_count = some r)
    (hl : (scanLines lines).local_count = some l)
    (hne : r ≠ l) :
    (run_quick_check rc lines).quick_status = "differ" ∧
    ∀ (sp lp : String) (logc : Option (List String))
      (webp pfp : Except String (String × String)) (pg : Bool)
      (conf : Option (List String)) (now : String),
      (get_status_payload sp lp (.ok (run_quick_check rc lines)) (.ok logc)
        webp pfp pg conf now).overall.severity = "WARN" := by
  have hq : (run_quick_check rc lines).quick_status = "differ" := by
    simp [run_quick_check, hr, hl, hs, hne]
  refine ⟨hq, ?_⟩
  intro sp lp logc webp pfp pg conf now
  rw [payload_severity_eq, hq]
  rfl

/-- Witness for C3 (amended): counts 10 vs 7 with no verdict line. -/
theorem c3_witness :
    (run_quick_check 0 ["Remote file count: 10",
        "Local  file count: 7"]).quick_status = "differ" ∧
    (get_status_payload "s" "l"
        (.ok (run_quick_check 0 ["Remote file count: 10", "Local  file count: 7"]))
        (.ok none) (.ok ("", "")) (.ok ("", "")) false none "T").overall.severity =
      "WARN" := by
  have h := c3_amended_count_inference 0
    ["Remote file count: 10", "Local  file count: 7"] 10 7 rfl rfl rfl (by decide)
  exact ⟨h.1, h.2 "s" "l" none (.ok ("", "")) (.ok ("", "")) false none "T"⟩

/-- Counterexample to C4: the external command exits 1 and no count is
recovered, yet because a "File counts match." verdict line was scanned the
returned `quick_status` is "match", not "error" (the error message is still
recorded). -/
theorem c4_counterexample :
    (run_quick_check 1 ["Quick check: File counts match."]).quick_status =
      "match" ∧
    (run_quick_check 1 ["Quick check: File counts match."]).remote_count = none ∧
    (run_quick_check 1 ["Quick check: File counts match."]).local_count = none ∧
    (run_quick_check 1 ["Quick check: File counts match."]).error =
      some "chk_sync.sh exited 1" :=
  ⟨rfl, rfl, rfl, rfl⟩

/-- Claim C4 (amended): when the external command exits nonzero, neither
count was recovered and additionally no verdict was recovered (the scanned
status is still "unknown"), `quick_status` is forced to "error", the error
message records the exit code, and `get_status_payload` reports severity
"ERROR". -/
theorem c4_amended_error_forcing (rc : Int) (lines : List String)
    (h0 : rc ≠ 0)
    (hr : (scanLines lines).remote_count = none)
    (hl : (scanLines lines).local_count = none)
    (hs : (scanLines lines).status = "unknown") :
    (run_quick_check rc lines).quick_status = "error" ∧
    (run_quick_check rc lines).error =
      some ("chk_sync.sh exited " ++ toString rc) ∧
    ∀ (sp lp : String) (logc : Option (List String))
      (webp pfp : Except String (String × String)) (pg : Bool)
      (conf : Option (List String)) (now : String),
      (get_status_payload sp lp (.ok (run_quick_check rc lines)) (.ok logc)
        webp pfp pg conf now).overall.severity = "ERROR" := by
  have hq : (run_quick_check rc lines).quick_status = "error" := by
    simp [run_quick_check, hr, hl, hs, h0]
  refine ⟨hq, ?_, ?_⟩
  · simp [run_quick_check, hr, hl, h0]
  · intro sp lp logc webp pfp pg conf now
    rw [payload_severity_eq, hq]
    rfl

/-- Witness for C4 (amended): exit code 1 and purely informational output. -/
theorem c4_witness :
    (run_quick_check 1 ["hello world"]).quick_status = "error" ∧
    (run_quick_check 1 ["hello world"]).error = some "chk_sync.sh exited 1" ∧
    (get_status_payload "s" "l" (.ok (run_quick_check 1 ["hello world"]))
        (.ok none) (.ok ("", "")) (.ok ("", "")) false none "T").overall.severity =
      "ERROR" := by
  have h := c4_amended_error_forcing 1 ["hello world"] (by decide) rfl rfl rfl
  exact ⟨h.1, h.2.1, h.2.2 "s" "l" none (.ok ("", "")) (.ok ("", "")) false none "T"⟩

/-- Claim C5: `get_status_payload` maps `quick_status` to `severity` by the
fixed function match→OK, differ→WARN, error→ERROR, anything else→UNKNOWN
(`sevSpec`), and for every combination of log content, service-probe
results and config content the severity depends only on `quick_status`. -/
theorem c5_severity_mapping :
    ∀ (sp lp : String) (q : QuickCheckResult) (logc : Option (List String))
      (webp pfp : Except String (String × String)) (pg : Bool)
      (conf : Option (List String)) (now : String),
      (get_status_payload sp lp (.ok q) (.ok logc) webp pfp pg conf now).overall.severity =
        sevSpec q.quick_status ∧
      sevSpec "match" = "OK" ∧ sevSpec "differ" = "WARN" ∧
      sevSpec "error" = "ERROR" ∧ sevSpec "unknown" = "UNKNOWN" :=
  fun sp lp q logc webp pfp pg conf now =>
    ⟨payload_severity_eq sp lp q logc webp pfp pg conf now, rfl, rfl, rfl, rfl⟩

/-- Counterexample to C6: a run whose output carries a verdict line but no
count lines returns `quick_status = "match"` with both counts absent — the
claimed invariant fails. -/
theorem c6_counterexample :
    (run_quick_check 0 ["Quick check: File counts match."]).quick_status =
      "match" ∧
    (run_quick_check 0 ["Quick check: File counts match."]).remote_count = none ∧
    (run_quick_check 0 ["Quick check: File counts match."]).local_count = none :=
  ⟨rfl, rfl, rfl⟩

/-- Claim C6 (amended): whenever `run_quick_check` returns `quick_status`
"match" or "differ", either both counts are present (the inference-fallback
case) or some output line contains the "quick check" marker (the
verdict-line case, in which counts may be absent). -/
theorem c6_amended_counts_or_verdict (rc : Int) (lines : List String)
    (h : (run_quick_check rc lines).quick_status = "match" ∨
      (run_quick_check rc lines).quick_status = "differ") :
    ((run_quick_check rc lines).remote_count ≠ none ∧
      (run_quick_check rc lines).local_count ≠ none) ∨
    ∃ l ∈ lines,
      containsSub ("quick check".data) (lowerL (pyStrip l.data)) = true := by
  by_cases hsu : (scanLines lines).status = "unknown"
  · rcases hr : (scanLines lines).remote_count with _ | r <;>
      rcases hl : (scanLines lines).local_count with _ | l
    · exfalso
      have hv : (run_quick_check rc lines).quick_status = "error" ∨
          (run_quick_check rc lines).quick_status = "unknown" := by
        by_cases h0 : rc = 0 <;> simp [run_quick_check, hr, hl, hsu, h0]
      rcases h with h1 | h1 <;> rcases hv with h2 | h2 <;> rw [h1] at h2 <;>
        exact absurd h2 (by decide)
    · exfalso
      have hv : (run_quick_check rc lines).quick_status = "unknown" := by
        simp [run_quick_check, hr, hl, hsu]
      rcases h with h1 | h1 <;> rw [h1] at hv <;> exact absurd hv (by decide)
    · exfalso
      have hv : (run_quick_check rc lines).quick_status = "unknown" := by
        simp [run_quick_check, hr, hl, hsu]
      rcases h with h1 | h1 <;> rw [h1] at hv <;> exact absurd hv (by decide)
    · left
      constructor
      · rw [run_qc_remote, hr]; exact Option.noConfusion
      · rw [run_qc_local, hl]; exact Option.noConfusion
  · right
    cases hA : (lines.filterMap verdictExtract).getLast? with
    | none =>
      exfalso
      rw [scanLines_status, hA] at hsu
      exact hsu rfl
    | some v =>
      obtain ⟨l, hmem, hvl⟩ := List.mem_filterMap.mp (getLastQ_mem hA)
      exact ⟨l, hmem, verdictExtract_marker hvl⟩

/-- Witness for C6 (amended) on a verdict-only output. -/
theorem c6_witness :
    ((run_quick_check 0 ["Quick check: Counts differ."]).remote_count ≠ none ∧
      (run_quick_check 0 ["Quick check: Counts differ."]).local_count ≠ none) ∨
    ∃ l ∈ ["Quick check: Counts differ."],
      containsSub ("quick check".data) (lowerL (pyStrip l.data)) = true :=
  c6_amended_counts_or_verdict 0 ["Quick check: Counts differ."] (Or.inr rfl)

/-- Claim C7: `_last_matching_timestamp` selects the line containing the
marker that occurs last in file order, takes its first 19 characters and
validates them against the `YYYY-MM-DD HH:MM:SS` format, yielding nothing
(reported as "--" by `parse_log`) when validation fails; and on the log
consisting only of "2025-11-29 08:00:05 rclone sync completed
successfully." the last file download is "2025-11-29 08:00:05" while the
last service restart is "--". -/
theorem c7_last_matching_timestamp :
    (∀ (lines : List String) (needle : String),
      last_matching_timestamp (some lines) needle =
        ((lines.filter (fun l => containsSub needle.data l.data)).getLast?).bind
          (fun l =>
            if isValidTs (l.data.take 19) then some (String.mk (l.data.take 19))
            else none)) ∧
    parse_log (some ["2025-11-29 08:00:05 rclone sync completed successfully."]) =
      ⟨"--", "2025-11-29 08:00:05",
        "2025-11-29 08:00:05 rclone sync completed successfully."⟩ := by
  constructor
  · intro lines needle
    simp only [last_matching_timestamp]
    rw [foldl_if_last (fun l => containsSub needle.data l.data) lines none,
      or_none_right]
    cases hA : (lines.filter (fun l => containsSub needle.data l.data)).getLast?
    · rfl
    · rfl
  · rfl

/-- Counterexample to C8: a run in which every sub-step succeeds still
returns a payload whose `debug` map is non-empty — it always carries the
`quick_error` (with value null) and `quick_raw_output` entries. -/
theorem c8_counterexample :
    (get_status_payload "s" "l"
        (.ok (run_quick_check 0 ["Remote file count: 10", "Local  file count: 10",
          "Quick check: File counts match."]))
        (.ok none) (.ok ("active", "")) (.ok ("active", "")) false none "T").debug ≠
      (⟨none, none, none⟩ : DebugMap) ∧
    (get_status_payload "s" "l"
        (.ok (run_quick_check 0 ["Remote file count: 10", "Local  file count: 10",
          "Quick check: File counts match."]))
        (.ok none) (.ok ("active", "")) (.ok ("active", "")) false none "T").debug.quick_raw_output =
      some ["Remote file count: 10", "Local  file count: 10",
        "Quick check: File counts match."] ∧
    (get_status_payload "s" "l"
        (.ok (run_quick_check 0 ["Remote file count: 10", "Local  file count: 10",
          "Quick check: File counts match."]))
        (.ok none) (.ok ("active", "")) (.ok ("active", "")) false none "T").overall.severity =
      "OK" := by
  refine ⟨by decide, rfl, rfl⟩

/-- Claim C8 (amended): the `debug` map of every returned payload contains
the `quick_error` and `quick_raw_output` entries exactly when the quick
check returned (also on fully successful runs, where `quick_error` holds
null), and the `top_level_error` entry exactly when a sub-step raised. -/
theorem c8_amended_debug_contents (sp lp : String)
    (quick : Except String QuickCheckResult)
    (logf : Except String (Option (List String)))
    (webp pfp : Except String (String × String)) (pg : Bool)
    (conf : Option (List String)) (now : String) :
    (get_status_payload sp lp quick logf webp pfp pg conf now).debug =
      ⟨(match quick with | .ok q => some q.error | .error _ => none),
       (match quick with | .ok q => some q.raw_output | .error _ => none),
       firstFailure quick logf⟩ := by
  cases quick <;> cases logf <;> rfl

/-- Claim C9: on a nonexistent log file the tail reader returns the empty
string and both derived timestamps are "--"; in the embedding these are
total functions, so no exception is possible. -/
theorem c9_missing_log_file :
    ∀ (needle : String) (n : Nat),
      tail_lines none n = "" ∧
      last_matching_timestamp none needle = none ∧
      parse_log none = ⟨"--", "--", ""⟩ :=
  fun _ _ => ⟨rfl, rfl, rfl⟩

/-- Counterexample to C10: "local remote file count: 7" is the last line
containing both "local" and "file count" and its token parses, yet
`local_count` is taken from the earlier "Local  file count: 3" line — the
`elif` sends any line matching the remote marker to `remote_count` even
when it also matches the local markers. -/
theorem c10_counterexample :
    containsSub ("local".data)
      (lowerL (pyStrip ("local remote file count: 7").data)) = true ∧
    containsSub ("file count".data)
      (lowerL (pyStrip ("local remote file count: 7").data)) = true ∧
    parseCountToken (pyStrip ("local remote file count: 7").data) = some 7 ∧
    (run_quick_check 0 ["Local  file count: 3",
        "local remote file count: 7"]).local_count = some 3 ∧
    (run_quick_check 0 ["Local  file count: 3",
        "local remote file count: 7"]).remote_count = some 7 :=
  ⟨rfl, rfl, rfl, rfl, rfl⟩

/-- Claim C10 (amended): the scan is last-occurrence-wins — `remote_count`
is the value of the last line matching the remote marker whose token
parses, `local_count` the value of the last line matching the local markers
but not the remote marker (the `elif` excludes those) whose token parses,
and the scanned verdict comes from the last "quick check" line carrying a
verdict keyword, defaulting to "unknown". -/
theorem c10_amended_last_occurrence_wins (rc : Int) (lines : List String) :
    (run_quick_check rc lines).remote_count =
      (lines.filterMap remoteExtract).getLast? ∧
    (run_quick_check rc lines).local_count =
      (lines.filterMap localExtract).getLast? ∧
    (scanLines lines).status =
      ((lines.filterMap verdictExtract).getLast?).getD "unknown" :=
  ⟨by rw [run_qc_remote, scanLines_remote],
   by rw [run_qc_local, scanLines_local],
   scanLines_status lines⟩

end PF
